import Mathlib

/-!
Verification of the smallsh shell component: data model, command-line
parser, builtin dispatcher, signal policy and the parent wait/reap loop,
embedded from the C source (struct job, parseCommandLine, runBuiltIn,
init, runCommand and main).
-/

namespace Smallsh

/-- Maximum argument count, `#define COMMAND_LINE_ARG 512`. -/
def COMMAND_LINE_ARG : Nat := 512

/-- Embedding of `struct job`. The C `args` array of size 512 is modelled
as the list of argument tokens actually stored, in order; `argCount`
mirrors the C counter; `inFile`/`outFile` are `none` where the C code
stores a null pointer. -/
structure Job where
  args : List String
  isInput : Bool
  inFile : Option String
  isOutput : Bool
  outFile : Option String
  isBackground : Bool
  argCount : Nat
  exitStatus : String
  deriving Repr, DecidableEq

/-- The delimiter set of `TOKEN_DELIMITERS " \t\r\n\a"`. -/
def isDelim (c : Char) : Bool :=
  c = ' ' || c = '\t' || c = '\r' || c = '\n' || c = '\x07'

/-- `strtok` style splitting: maximal runs of non-delimiter characters,
delimiter runs are skipped, no empty tokens are produced. `cur` holds
the characters of the token in progress, in reverse order. -/
def tokenizeGo : List Char → List Char → List (List Char)
  | [], cur => if cur = [] then [] else [cur.reverse]
  | c :: cs, cur =>
    if isDelim c then
      if cur = [] then tokenizeGo cs []
      else cur.reverse :: tokenizeGo cs []
    else tokenizeGo cs (c :: cur)

/-- Tokenizer over a raw input line, as performed by the repeated
`strtok(rawInput, TOKEN_DELIMITERS)` calls in `parseCommandLine`. -/
def tokenize (s : String) : List String :=
  (tokenizeGo s.toList []).map fun cs => String.mk cs

/-- The token-consuming loop of `parseCommandLine`. A `"<"` or `">"`
token unconditionally consumes the next token as the redirect path
(the C code stores whatever `strtok` returns next, a null pointer when
the line is exhausted); `"&"` sets the background flag; every other
token is stored at index `argCount`, which is then incremented with no
bound check. -/
def parseLoop : List String → Job → Job
  | [], j => j
  | t :: ts, j =>
    if t = "<" then
      match ts with
      | [] => { j with isInput := true, inFile := none }
      | p :: ts2 => parseLoop ts2 { j with isInput := true, inFile := some p }
    else if t = ">" then
      match ts with
      | [] => { j with isOutput := true, outFile := none }
      | p :: ts2 => parseLoop ts2 { j with isOutput := true, outFile := some p }
    else if t = "&" then
      parseLoop ts { j with isBackground := true }
    else
      parseLoop ts { j with args := j.args ++ [t], argCount := j.argCount + 1 }

/-- `parseCommandLine` as called from `main`: the per-iteration reset
clears `isInput`, `isOutput`, `isBackground` and `argCount` before each
parse, while `exitStatus` persists across iterations. -/
def parseCommandLine (tokens : List String) (lastStatus : String) : Job :=
  parseLoop tokens
    { args := [], isInput := false, inFile := none, isOutput := false,
      outFile := none, isBackground := false, argCount := 0,
      exitStatus := lastStatus }

/-- The indices of the C `args` array written while parsing: indices
`0 .. argCount-1` by the storing loop, and index `argCount` by the final
null-terminator cap `args[argCount] = NULL`. -/
def argWriteIndices (j : Job) : List Nat := List.range (j.argCount + 1)

/-- True when parsing wrote past the end of the 512-element `args`
array, i.e. some written index is at least `COMMAND_LINE_ARG`. -/
def hasOOBWrite (j : Job) : Bool :=
  (argWriteIndices j).any fun i => decide (COMMAND_LINE_ARG ≤ i)

/-! Signal policy (`init` and the child branch of `runCommand`). -/

/-- A signal disposition: `dfl` is the OS default (Interruptible for the
interrupt signal), `ign` is Ignore. -/
inductive Handler where
  | dfl
  | ign
  deriving Repr, DecidableEq

/-- `foreground.sa_handler = SIG_DFL` in `init`. -/
def foregroundAction : Handler := .dfl

/-- `background.sa_handler = SIG_IGN` in `init`. -/
def backgroundAction : Handler := .ign

/-- `sigaction(SIGINT, &background, NULL)` in `init`: the shell process
itself ignores the interrupt signal. -/
def shellSigint : Handler := backgroundAction

/-- The interrupt disposition installed in a freshly forked child before
image replacement: the child branch of `runCommand` executes
`sigaction(SIGINT, &foreground, NULL)` unconditionally, with no test of
`parsedInput->isBackground`. -/
def childSigint (_j : Job) : Handler := foregroundAction

/-! Wait-status decoding, the glibc macros used by `runCommand`. -/

/-- `WIFEXITED(s)`, i.e. `(s & 0x7f) == 0`. -/
def WIFEXITED (s : Nat) : Bool := s % 128 == 0

/-- `WIFSIGNALED(s)`, i.e. `((signed char)(((s & 0x7f) + 1) >> 1)) > 0`,
which holds exactly when `s & 0x7f` lies in `1 .. 126`. -/
def WIFSIGNALED (s : Nat) : Bool :=
  decide (1 ≤ s % 128) && decide (s % 128 ≤ 126)

/-- `WTERMSIG(s)`, i.e. `s & 0x7f`. -/
def WTERMSIG (s : Nat) : Nat := s % 128

/-- `WEXITSTATUS(s)`, i.e. `(s >> 8) & 0xff`. -/
def WEXITSTATUS (s : Nat) : Nat := s / 256 % 256

/-! The parent branch of `runCommand`: the do-while wait loop followed by
the signal report and one non-blocking reap. OS nondeterminism is an
oracle trace of `waitpid` call results. -/

/-- Result of one `waitpid` call: `ready p st` means a child `p` changed
state and `waitpid` filled the status word with `st`; `noneReady` means a
`WNOHANG` call returned 0 and left the status word untouched. -/
inductive WaitOutcome where
  | ready (pid : Nat) (st : Nat)
  | noneReady
  deriving Repr, DecidableEq

/-- State when the do-while loop stops being simulated: the current
status word, the `exitStatus` text, the unconsumed oracle trace, and
whether the loop actually exited (false when the fuel ran out with the
loop still iterating, or a blocking wait had no event to return). -/
structure LoopOut where
  status : Nat
  exitStatus : String
  trace : List WaitOutcome
  finished : Bool
  deriving Repr, DecidableEq

/-- The do-while loop of the parent branch of `runCommand`. The body runs
first: a foreground iteration performs a blocking `waitpid(pid, &status,
WUNTRACED)` and then writes `exitStatus = "exit value N"`; a background
iteration performs `waitpid(-1, &status, WNOHANG)`, which only overwrites
the status word when some child was ready. The loop repeats while
`!WIFEXITED(status) && !WIFSIGNALED(status)`, reading whatever the status
word currently holds — for a background job on the first iteration that
is the uninitialized `int status`, modelled by the `status` argument. -/
def waitLoop (bg : Bool) : Nat → Nat → String → List WaitOutcome → LoopOut
  | 0, status, es, tr => ⟨status, es, tr, false⟩
  | fuel + 1, status, es, tr =>
    if bg then
      match tr with
      | .ready _ st :: rest =>
        if !(WIFEXITED st) && !(WIFSIGNALED st) then waitLoop bg fuel st es rest
        else ⟨st, es, rest, true⟩
      | .noneReady :: rest =>
        if !(WIFEXITED status) && !(WIFSIGNALED status) then
          waitLoop bg fuel status es rest
        else ⟨status, es, rest, true⟩
      | [] =>
        if !(WIFEXITED status) && !(WIFSIGNALED status) then
          waitLoop bg fuel status es []
        else ⟨status, es, [], true⟩
    else
      match tr with
      | .ready _ st :: rest =>
        let es2 := "exit value " ++ toString (WEXITSTATUS st)
        if !(WIFEXITED st) && !(WIFSIGNALED st) then waitLoop bg fuel st es2 rest
        else ⟨st, es2, rest, true⟩
      | _ => ⟨status, es, tr, false⟩

/-- The text written by `sprintf(exitStatus, "terminated by signal %d.",
WTERMSIG(status))` — note the trailing period in the format string. -/
def signalText (n : Nat) : String :=
  "terminated by signal " ++ toString n ++ "."

/-- Outcome of the parent branch of `runCommand`: the final `exitStatus`
field, the lines printed (in order), and whether `runCommand` returned
to the main loop (false when the wait loop was still iterating). -/
structure RunRes where
  exitStatus : String
  output : List String
  returned : Bool
  deriving Repr, DecidableEq

/-- The parent branch of `runCommand` for a successfully forked child
`childPid`: print the background launch notice, run the do-while wait
loop starting from the indeterminate status word `status0`, then run the
unconditional `WIFSIGNALED` report and the final `waitpid(-1, WNOHANG)`
reap with its two notices. -/
def runCommandParent (bg : Bool) (lastStatus : String) (childPid : Nat)
    (status0 : Nat) (fuel : Nat) (trace : List WaitOutcome) : RunRes :=
  let out0 : List String :=
    if bg then ["background pid is " ++ toString childPid] else []
  let lo := waitLoop bg fuel status0 lastStatus trace
  if lo.finished then
    let es1 := if WIFSIGNALED lo.status then signalText (WTERMSIG lo.status)
      else lo.exitStatus
    let out1 := if WIFSIGNALED lo.status then
      out0 ++ [signalText (WTERMSIG lo.status)] else out0
    match lo.trace with
    | .ready p st :: _ =>
      let out2 := if WIFEXITED st then
        out1 ++ ["background pid " ++ toString p ++ " is done: exit value "
          ++ toString (WEXITSTATUS st) ++ "."] else out1
      let out3 := if WIFSIGNALED st then
        out2 ++ ["background pid " ++ toString p
          ++ " is done: terminated by signal " ++ toString (WTERMSIG st)
          ++ "."] else out2
      ⟨es1, out3, true⟩
    | _ => ⟨es1, out1, true⟩
  else
    ⟨lo.exitStatus, out0, false⟩

/-! The builtin dispatcher `runBuiltIn` and the dispatch decision of
`main`. The working directory and the directory structure are abstracted
as a current path plus the set of paths on which `chdir` succeeds. -/

/-- The file-system abstraction: `dirs` lists the paths on which `chdir`
succeeds, `home` is the value of the HOME environment variable. -/
structure FS where
  dirs : List String
  home : String
  deriving Repr, DecidableEq

/-- The persistent shell state: the `exitStatus` text carried in the job
struct across loop iterations, and the process working directory. -/
structure ShellSt where
  exitStatus : String
  cwd : String
  deriving Repr, DecidableEq

/-- `runBuiltIn`: for `status`, print `exitStatus` and reset it to
`"exit value 0"`; otherwise the command is `cd`: with an argument,
attempt `chdir(args[1])` and set the status text accordingly, printing
the error line on failure; with no argument, `chdir(getenv("HOME"))`
with the return value ignored, always setting `"exit value 0"`. Returns
the new state and the lines printed. -/
def runBuiltIn (args : List String) (fs : FS) (sh : ShellSt) :
    ShellSt × List String :=
  if args.head? = some "status" then
    ({ sh with exitStatus := "exit value 0" }, [sh.exitStatus])
  else
    match args.get? 1 with
    | some p =>
      if p ∈ fs.dirs then
        ({ sh with cwd := p, exitStatus := "exit value 0" }, [])
      else
        ({ sh with exitStatus := "exit value 1" },
          [p ++ ": no such file or directory"])
    | none =>
      let newCwd := if fs.home ∈ fs.dirs then fs.home else sh.cwd
      ({ sh with cwd := newCwd, exitStatus := "exit value 0" }, [])

/-- How `main` routes a parsed argument vector: zero arguments restart
the loop, `exit` leaves it, `cd` and `status` go to `runBuiltIn`, and
everything else goes to `runCommand`. -/
inductive DispatchKind where
  | skip
  | exitShell
  | builtin
  | external
  deriving Repr, DecidableEq

/-- The dispatch decision in the body of the `main` loop. -/
def mainDispatch (args : List String) : DispatchKind :=
  match args.head? with
  | none => .skip
  | some a0 =>
    if a0 = "exit" then .exitShell
    else if a0 = "cd" ∨ a0 = "status" then .builtin
    else .external

/-- Number of `fork` calls performed on each dispatch path: `fork` occurs
only inside `runCommand`, once. -/
def forkCount : DispatchKind → Nat
  | .external => 1
  | _ => 0

/-! Helper lemmas. -/

/-- Parsing `n` copies of an ordinary word (not `"<"`, `">"`, `"&"`)
appends them all to `args` and advances `argCount` by `n`. -/
lemma parseLoop_replicate (w : String) (h1 : w ≠ "<") (h2 : w ≠ ">")
    (h3 : w ≠ "&") (n : Nat) :
    ∀ j : Job, parseLoop (List.replicate n w) j =
      { j with
        args := j.args ++ List.replicate n w,
        argCount := j.argCount + n } := by
  induction n with
  | zero => intro j; simp [parseLoop]
  | succ k ih =>
    intro j
    rw [List.replicate_succ]
    show parseLoop (w :: List.replicate k w) j = _
    unfold parseLoop
    rw [if_neg h1, if_neg h2, if_neg h3, ih]
    simp [List.replicate_succ]
    omega

/-- The out-of-bounds test reduces to comparing `argCount` with the
array size. -/
lemma hasOOBWrite_iff (j : Job) :
    hasOOBWrite j = true ↔ COMMAND_LINE_ARG ≤ j.argCount := by
  unfold hasOOBWrite argWriteIndices
  simp only [List.any_eq_true, List.mem_range, decide_eq_true_eq]
  constructor
  · rintro ⟨i, hi, h⟩
    omega
  · intro h
    exact ⟨j.argCount, by omega, h⟩

/-- A normally exited status word satisfies `WIFEXITED`. -/
lemma wifexited_exit (n : Nat) : WIFEXITED (n * 256) = true := by
  have h : n * 256 % 128 = 0 := by omega
  simp [WIFEXITED, h]

/-- A normally exited status word does not satisfy `WIFSIGNALED`. -/
lemma wifsignaled_exit (n : Nat) : WIFSIGNALED (n * 256) = false := by
  have h : n * 256 % 128 = 0 := by omega
  simp [WIFSIGNALED, h]

/-- `WEXITSTATUS` recovers the exit code from the status word. -/
lemma wexitstatus_exit (n : Nat) (h : n ≤ 255) :
    WEXITSTATUS (n * 256) = n := by
  unfold WEXITSTATUS
  omega

/-- A signal-termination status word fails `WIFEXITED`. -/
lemma wifexited_sig (sig : Nat) (h1 : 1 ≤ sig) (h2 : sig ≤ 126) :
    WIFEXITED sig = false := by
  have h : sig % 128 = sig := Nat.mod_eq_of_lt (by omega)
  simp [WIFEXITED, h]
  omega

/-- A signal-termination status word satisfies `WIFSIGNALED`. -/
lemma wifsignaled_sig (sig : Nat) (h1 : 1 ≤ sig) (h2 : sig ≤ 126) :
    WIFSIGNALED sig = true := by
  have h : sig % 128 = sig := Nat.mod_eq_of_lt (by omega)
  simp [WIFSIGNALED, h]
  omega

/-- `WTERMSIG` recovers the signal number. -/
lemma wtermsig_sig (sig : Nat) (h2 : sig ≤ 126) : WTERMSIG sig = sig := by
  unfold WTERMSIG
  omega

/-! Claim theorems. -/

/-- Claim C9: parsing the line `ls -l > out.txt &` yields arguments
`["ls", "-l"]`, output redirect `out.txt`, background true, and no
input redirect. -/
theorem parse_ls_example :
    parseCommandLine (tokenize "ls -l > out.txt &") "none" =
      { args := ["ls", "-l"], isInput := false, inFile := none,
        isOutput := true, outFile := some "out.txt", isBackground := true,
        argCount := 2, exitStatus := "none" } := by
  decide

/-- Claim C10: when the parser reaches a final `<` or `>` token with no
token after it, it terminates normally without reading past the end of
the token list, sets the corresponding redirect flag with an absent
(null) path, and leaves the arguments collected so far (the accumulated
state `j`) unchanged. -/
theorem trailing_redirect_token_safe (j : Job) :
    parseLoop ["<"] j = { j with isInput := true, inFile := none } ∧
    parseLoop [">"] j = { j with isOutput := true, outFile := none } := by
  constructor <;> simp [parseLoop]

/-- Claim C1 (code bug): the forked child installs the default
(Interruptible) interrupt disposition unconditionally — a background
job, such as the one parsed from `sleep 30 &`, also gets Interruptible
rather than keeping the Ignore disposition, contradicting the claim that
the restoration happens if and only if the job is foreground. -/
theorem background_child_gets_default_sigint :
    (parseCommandLine (tokenize "sleep 30 &") "none").isBackground = true ∧
    childSigint (parseCommandLine (tokenize "sleep 30 &") "none")
      = Handler.dfl ∧
    Handler.dfl ≠ backgroundAction := by
  decide

/-- Claim C2 (code bug): the parser has no argument-count check at all.
On a line of 513 ordinary words it stores all 513 (writing indices 512
and 513 of the 512-element array) and raises no error, and already on a
line of exactly 512 words the null-terminator cap writes index 512, one
past the end — so neither the hard-error half nor the at-most-512-safety
half of the claim holds. -/
theorem parse_overflow_unchecked :
    (parseCommandLine (List.replicate 513 "a") "none").argCount = 513 ∧
    hasOOBWrite (parseCommandLine (List.replicate 513 "a") "none") = true ∧
    (parseCommandLine (List.replicate 512 "a") "none").argCount = 512 ∧
    hasOOBWrite (parseCommandLine (List.replicate 512 "a") "none") = true := by
  have h513 := parseLoop_replicate "a" (by decide) (by decide) (by decide) 513
  have h512 := parseLoop_replicate "a" (by decide) (by decide) (by decide) 512
  unfold parseCommandLine
  rw [h513, h512]
  refine ⟨rfl, ?_, rfl, ?_⟩ <;> rw [hasOOBWrite_iff] <;> decide

/-- Claim C3 (code bug): a background launch does print the
`background pid is N` notice, but it does not return to the prompt
immediately — when the uninitialized status word happens to hold 127
(the stopped pattern, so neither `WIFEXITED` nor `WIFSIGNALED`) and no
child has changed state yet, the do-while loop spins on
`waitpid(-1, WNOHANG)` forever: for every fuel bound the loop is still
iterating. -/
theorem background_launch_spins (fuel cpid : Nat) (es : String) :
    (runCommandParent true es cpid 127 fuel []).returned = false ∧
    (runCommandParent true es cpid 127 fuel []).output =
      ["background pid is " ++ toString cpid] := by
  have hloop : ∀ f, waitLoop true f 127 es [] = ⟨127, es, [], false⟩ := by
    intro f
    induction f with
    | zero => rfl
    | succ k ih =>
      unfold waitLoop
      simpa [WIFEXITED, WIFSIGNALED] using ih
  simp [runCommandParent, hloop fuel]

/-- Claim C4 (code bug): dispatching a background job can write
`last_status`. If an earlier child terminated by signal 2 is pending
when a background job is launched, the first `waitpid(-1, WNOHANG)`
iteration reaps it, the loop exits, and the unconditional `WIFSIGNALED`
block overwrites `exitStatus` with `terminated by signal 2.` even though
no foreground wait and no builtin ran. -/
theorem background_launch_writes_status :
    (runCommandParent true "none" 42 0 5
      [.ready 99 2]).exitStatus = "terminated by signal 2." ∧
    (runCommandParent true "none" 42 0 5 [.ready 99 2]).returned = true ∧
    "terminated by signal 2." ≠ "none" := by
  decide

/-- Claim C5 counterexample: for a foreground child terminated by signal
11, the stored status text is `terminated by signal 11.` — with a
trailing period — and not the claimed punctuation-free
`terminated by signal 11`. -/
theorem fg_signal_text_not_claimed_format :
    (runCommandParent false "none" 42 0 5
      [.ready 42 11]).exitStatus = "terminated by signal 11." ∧
    ¬ (runCommandParent false "none" 42 0 5
      [.ready 42 11]).exitStatus = "terminated by signal 11" := by
  decide

/-- Claim C5 as amended: for every foreground child terminated by signal
N (a real signal number, 1 ≤ N ≤ 126), the shell prints and stores in
`last_status` exactly `terminated by signal N.`, with a trailing
period. -/
theorem fg_signal_status_text (sig : Nat) (h1 : 1 ≤ sig) (h2 : sig ≤ 126)
    (p s0 fuel : Nat) (hf : 1 ≤ fuel) (es0 : String) :
    (runCommandParent false es0 p s0 fuel [.ready p sig]).exitStatus =
      "terminated by signal " ++ toString sig ++ "." ∧
    (runCommandParent false es0 p s0 fuel [.ready p sig]).output =
      ["terminated by signal " ++ toString sig ++ "."] := by
  obtain ⟨k, rfl⟩ : ∃ k, fuel = k + 1 := ⟨fuel - 1, by omega⟩
  simp [runCommandParent, waitLoop, signalText, wifexited_sig sig h1 h2,
    wifsignaled_sig sig h1 h2, wtermsig_sig sig h2]

/-- Witness for the amended claim C5 at signal 11. -/
theorem fg_signal_status_text_witness :
    (runCommandParent false "none" 42 0 1 [.ready 42 11]).exitStatus =
      "terminated by signal " ++ toString 11 ++ "." :=
  (fg_signal_status_text 11 (by decide) (by decide) 42 0 1 (by decide)
    "none").1

/-- Claim C6: for every command run in the foreground that exits
normally with code N (0-255), the foreground wait stores
`exit value N` and a subsequent `status` builtin call prints exactly
`exit value N`. -/
theorem fg_exit_status_reported (N : Nat) (hN : N ≤ 255) (fuel : Nat)
    (hf : 1 ≤ fuel) (p s0 : Nat) (es0 : String) (fs : FS) (c : String) :
    (runCommandParent false es0 p s0 fuel [.ready p (N * 256)]).returned
      = true ∧
    (runCommandParent false es0 p s0 fuel [.ready p (N * 256)]).exitStatus
      = "exit value " ++ toString N ∧
    (runBuiltIn ["status"] fs
      ⟨(runCommandParent false es0 p s0 fuel
        [.ready p (N * 256)]).exitStatus, c⟩).2
      = ["exit value " ++ toString N] := by
  obtain ⟨k, rfl⟩ : ∃ k, fuel = k + 1 := ⟨fuel - 1, by omega⟩
  simp [runCommandParent, waitLoop, runBuiltIn, wifexited_exit N,
    wifsignaled_exit N, wexitstatus_exit N hN]

/-- Witness for claim C6 at exit code 7. -/
theorem fg_exit_status_reported_witness :
    (runBuiltIn ["status"] ⟨[], "/home"⟩
      ⟨(runCommandParent false "none" 42 0 1
        [.ready 42 (7 * 256)]).exitStatus, "/"⟩).2
      = ["exit value " ++ toString 7] :=
  (fg_exit_status_reported 7 (by decide) 1 (by decide) 42 0 "none"
    ⟨[], "/home"⟩ "/").2.2

/-- Claim C7: `cd` with a path on which `chdir` fails leaves the working
directory unchanged, prints the `no such file or directory` line and
sets `last_status` to `exit value 1`; `cd` with no argument changes to
the HOME directory and sets `last_status` to `exit value 0` — and the
status is `exit value 0` regardless of whether the HOME `chdir`
succeeded, since its return value is ignored. -/
theorem cd_builtin_spec (fs : FS) (sh : ShellSt) (p : String)
    (hp : p ∉ fs.dirs) (hh : fs.home ∈ fs.dirs) :
    runBuiltIn ["cd", p] fs sh =
      ({ sh with exitStatus := "exit value 1" },
        [p ++ ": no such file or directory"]) ∧
    runBuiltIn ["cd"] fs sh =
      ({ sh with cwd := fs.home, exitStatus := "exit value 0" }, []) ∧
    (∀ fs2 : FS, (runBuiltIn ["cd"] fs2 sh).1.exitStatus
      = "exit value 0") := by
  refine ⟨?_, ?_, ?_⟩
  · simp [runBuiltIn, hp]
  · simp [runBuiltIn, hh]
  · intro fs2
    by_cases h : fs2.home ∈ fs2.dirs <;> simp [runBuiltIn, h]

/-- Witness for claim C7 on a concrete file system. -/
theorem cd_builtin_spec_witness :
    runBuiltIn ["cd", "/nope"] ⟨["/home/me"], "/home/me"⟩ ⟨"none", "/w"⟩ =
      (⟨"exit value 1", "/w"⟩, ["/nope: no such file or directory"]) ∧
    runBuiltIn ["cd"] ⟨["/home/me"], "/home/me"⟩ ⟨"none", "/w"⟩ =
      (⟨"exit value 0", "/home/me"⟩, []) :=
  ⟨(cd_builtin_spec ⟨["/home/me"], "/home/me"⟩ ⟨"none", "/w"⟩ "/nope"
      (by decide) (by decide)).1,
    (cd_builtin_spec ⟨["/home/me"], "/home/me"⟩ ⟨"none", "/w"⟩ "/nope"
      (by decide) (by decide)).2.1⟩

/-- Claim C8: the `status` builtin prints the current `last_status` text
verbatim, then sets `last_status` to `exit value 0`; the working
directory is untouched, and the dispatch path for `status` performs no
fork. -/
theorem status_builtin_spec (fs : FS) (sh : ShellSt)
    (rest : List String) :
    runBuiltIn ("status" :: rest) fs sh =
      ({ sh with exitStatus := "exit value 0" }, [sh.exitStatus]) ∧
    forkCount (mainDispatch ("status" :: rest)) = 0 := by
  constructor
  · simp [runBuiltIn]
  · simp [mainDispatch, forkCount]

end Smallsh
